import Mathlib

/-!
Shallow embedding of `src/app.py`, the Streamlit RAG agent
(Gemini + Supabase + sentence-transformer embeddings), together with
theorems settling the specification claims about it.

Modelling conventions:
* Embedding vectors are rational vectors (`List ℚ`); the floating-point
  similarity value lives in `ℝ`, with `Option ℝ` used where the Python
  computation can produce IEEE NaN (`none` models NaN).
* External collaborators (the Supabase table read, the Gemini completion
  call, the sentence encoder) are parameters of the functions that use
  them; fallible remote calls are `Except`-valued parameters, and the
  `try/except` recovery of the script is the corresponding `match`.
* `np.argsort` uses an unstable quicksort, so its tie order is
  unspecified; the model fixes a deterministic stable sort, which agrees
  with the source on every property stated below (none depends on tie
  order).
-/

namespace RagApp

/-- A Supabase table row as observed by `retrieve_relevant_context`
(src/app.py:97-101): the script only ever reads the fields
`content`, `text`, `description` (each possibly absent) and the row's
whole textual representation `str(doc)` (field `strRepr`). -/
structure Row where
  content : Option String
  text : Option String
  description : Option String
  strRepr : String
deriving DecidableEq

/-- Python `x or y` for `x` an optional string: `y` is returned when `x`
is falsy, i.e. absent (`None`) or the empty string. -/
def pyOr (x : Option String) (y : String) : String :=
  match x with
  | some s => if s = "" then y else s
  | none => y

/-- A field value that Python treats as falsy: absent or empty. -/
def falsy (x : Option String) : Prop := x = none ∨ x = some ""

instance (x : Option String) : Decidable (falsy x) := by
  unfold falsy; infer_instance

/-- The text used for ranking a row, src/app.py:100:
`doc.get('content') or doc.get('text') or doc.get('description') or str(doc)`. -/
def extract_text (doc : Row) : String :=
  pyOr doc.content (pyOr doc.text (pyOr doc.description doc.strRepr))

/-! ### Cosine similarity (src/app.py:107-110) -/

/-- `np.dot` on equal-length rational vectors. -/
def dotQ (a b : List ℚ) : ℚ := (List.zipWith (· * ·) a b).sum

/-- Sum of squares of a vector, so that `np.linalg.norm a = Real.sqrt (normSq a)`. -/
def normSq (a : List ℚ) : ℚ := dotQ a a

/-- `np.linalg.norm`: the Euclidean norm, a real number. -/
noncomputable def pyNorm (a : List ℚ) : ℝ := Real.sqrt ((normSq a : ℚ) : ℝ)

open Classical in
/-- The similarity of one document vector `d` against the query vector `q`
as computed at src/app.py:108-110:
`np.dot(d, q) / (np.linalg.norm(d) * np.linalg.norm(q))`, with no
zero-norm guard.  A rational vector has norm 0 exactly when it is the
zero vector, in which case the dividend `np.dot(d, q)` is also 0, so the
float division is `0.0 / 0.0 = NaN`; `none` models that NaN. -/
noncomputable def cosineSim (d q : List ℚ) : Option ℝ :=
  if pyNorm d * pyNorm q = 0 then none
  else some (((dotQ d q : ℚ) : ℝ) / (pyNorm d * pyNorm q))

/-! ### Document fetch (src/app.py:72-84) -/

/-- What `fetch_data_from_supabase` hands back: the row list it returns,
plus the non-fatal `st.error` banner text it emitted, if any.  The
function being total (no `Except` in its result type) models that it
never raises past this boundary. -/
structure FetchOutcome where
  data : List Row
  diagnostic : Option String
deriving DecidableEq

/-- src/app.py:72-84.  `table_read` models
`supabase.table(table).select("*").execute()` followed by `.data`: it
either produces the full row list of the table or raises, which the
script catches.  Both arms of the source's `if query:` issue the same
unfiltered `select("*")`, which the model keeps verbatim. -/
def fetch_data_from_supabase (table_read : String → Except String (List Row))
    (table : String) (query : Option String) : FetchOutcome :=
  match (if query.isSome then table_read table else table_read table) with
  | Except.ok rows => ⟨rows, none⟩
  | Except.error e => ⟨[], some ("Error fetching data: " ++ e)⟩

/-! ### Top-k selection (src/app.py:112-117)

The selection step is written once, generically in the similarity value
type and its order, and instantiated twice: at `ℚ` (similarity lists
that contain no NaN, where everything is computable and decidable) and
at `Option ℝ` with NaN sorted last (the value type actually produced by
`cosineSim`, used in the full pipeline). -/

variable {α : Type}

/-- `np.argsort sims`: the indices `0, ..., sims.length - 1` permuted so
that the values they index are in ascending order.  numpy's default
quicksort leaves the tie order unspecified; the model fixes a
deterministic stable sort over the enumerated (index, value) pairs. -/
def argsort (r : α → α → Prop) [inst : DecidableRel r] (sims : List α) : List ℕ :=
  (@List.insertionSort (ℕ × α) (fun p q => r p.2 q.2) (fun p q => inst p.2 q.2)
    sims.enum).map Prod.fst

/-- Python's `l[-k:]`: the last `k` elements — except that for `k = 0`
the slice `l[-0:]` is `l[0:]`, the whole list. -/
def lastSlice (l : List β) (k : ℕ) : List β :=
  if k = 0 then l else l.drop (l.length - k)

/-- `np.argsort(similarities)[-top_k:][::-1]` (src/app.py:113): the
indices of the `top_k` largest similarities, in descending order. -/
def top_indices (r : α → α → Prop) [DecidableRel r] (sims : List α) (k : ℕ) : List ℕ :=
  (lastSlice (argsort r sims) k).reverse

/-- `[doc_texts[i] for i in top_indices if similarities[i] > 0.1]`
(src/app.py:115).  `keep` is the threshold test; `dflt` is a formal
default for list indexing (every index produced by `top_indices` is in
bounds, so it is never consulted). -/
def relevant_docs (r : α → α → Prop) [DecidableRel r] (keep : α → Prop)
    [DecidablePred keep] (dflt : α) (doc_texts : List String) (sims : List α)
    (k : ℕ) : List String :=
  ((top_indices r sims k).filter (fun i => decide (keep (sims.getD i dflt)))).map
    (fun i => doc_texts.getD i "")

/-- `"\n\n".join(relevant_docs) if relevant_docs else "No relevant context found."`
(src/app.py:117). -/
def selectContext (r : α → α → Prop) [DecidableRel r] (keep : α → Prop)
    [DecidablePred keep] (dflt : α) (doc_texts : List String) (sims : List α)
    (k : ℕ) : String :=
  let rd := relevant_docs r keep dflt doc_texts sims k
  if rd = [] then "No relevant context found." else String.intercalate "\n\n" rd

/-- The threshold test `similarities[i] > 0.1` of src/app.py:115 on a
NaN-free similarity.  The threshold 0.1 is written `mkRat 1 10` (the
same rational as `1 / 10`, see `qKeep_iff`) so that concrete instances
reduce inside the kernel. -/
def qKeep (a : ℚ) : Prop := mkRat 1 10 < a

instance : DecidablePred qKeep := fun a => inferInstanceAs (Decidable (mkRat 1 10 < a))

/-- `top_indices` on NaN-free (rational) similarity lists. -/
def top_indicesQ (sims : List ℚ) (k : ℕ) : List ℕ :=
  top_indices (· ≤ ·) sims k

/-- The indices that survive the threshold filter, in selection order. -/
def kept_indicesQ (sims : List ℚ) (k : ℕ) : List ℕ :=
  (top_indicesQ sims k).filter (fun i => decide (qKeep (sims.getD i 0)))

/-- `relevant_docs` on NaN-free (rational) similarity lists. -/
def relevant_docsQ (doc_texts : List String) (sims : List ℚ) (k : ℕ) : List String :=
  relevant_docs (· ≤ ·) qKeep 0 doc_texts sims k

/-- `selectContext` on NaN-free (rational) similarity lists. -/
def selectContextQ (doc_texts : List String) (sims : List ℚ) (k : ℕ) : String :=
  selectContext (· ≤ ·) qKeep 0 doc_texts sims k

/-- The order `np.argsort` uses on float similarities that may contain
NaN: numpy sorts NaN to the end, i.e. NaN (`none`) is greatest. -/
def simLe : Option ℝ → Option ℝ → Prop
  | _, none => True
  | none, some _ => False
  | some x, some y => x ≤ y

/-- `similarities[i] > 0.1` under IEEE comparison: false when
`similarities[i]` is NaN. -/
def simKeep : Option ℝ → Prop
  | none => False
  | some x => 1 / 10 < x

/-! ### The full ranker (src/app.py:90-117) -/

/-- src/app.py:90-117.  `emb` models `embedding_model.encode` on a single
text (the script encodes `[query]` and takes element 0, and encodes the
document texts as a batch; both reduce to one application of the encoder
per text). -/
noncomputable def retrieve_relevant_context (emb : String → List ℚ)
    (query : String) (documents : List Row) (top_k : ℕ) : String :=
  if documents = [] then "No documents found in the database."
  else
    let doc_texts := documents.map extract_text
    let query_embedding := emb query
    let similarities := (doc_texts.map emb).map (fun d => cosineSim d query_embedding)
    @selectContext (Option ℝ) simLe (Classical.decRel _) simKeep (Classical.decPred _)
      none doc_texts similarities top_k

/-! ### Response generation (src/app.py:119-135) -/

/-- The prompt f-string of `generate_response`, src/app.py:121-129,
byte for byte (including the trailing space after "question. "). -/
def prompt_template (context query : String) : String :=
  "You are a helpful AI assistant. Use the following context from the database to answer the user's question. \nIf the context doesn't contain relevant information, say so and provide a general answer if possible.\n\nContext from database:\n"
    ++ context ++ "\n\nUser Question: " ++ query ++ "\n\nAnswer:"

/-- src/app.py:119-135.  `generate` models
`model.generate_content(prompt)` followed by `.text`: a completion text
or a raised error, which the script converts to a displayable string. -/
def generate_response (generate : String → Except String String)
    (query context : String) : String :=
  match generate (prompt_template context query) with
  | Except.ok t => t
  | Except.error e => "Error generating response: " ++ e

/-! ### Conversation state (src/app.py:13-14, 46-48, 159-197) -/

/-- The role tag of a chat message ("user" / "assistant"). -/
inductive Role
  | user
  | assistant
deriving DecidableEq

/-- The string a role renders as. -/
def Role.render : Role → String
  | Role.user => "user"
  | Role.assistant => "assistant"

/-- One entry of `st.session_state.messages`. -/
structure Message where
  role : Role
  content : String
deriving DecidableEq

/-- One user turn of the main loop, src/app.py:164-197: append the user
message, fetch the table, either rank + generate (non-empty fetch) or
use the fixed no-documents reply, then append the assistant message. -/
noncomputable def user_turn (table_read : String → Except String (List Row))
    (emb : String → List ℚ) (generate : String → Except String String)
    (table : String) (messages : List Message) (prompt : String) : List Message :=
  let with_user := messages ++ [⟨Role.user, prompt⟩]
  let documents := (fetch_data_from_supabase table_read table none).data
  let response :=
    if documents ≠ [] then
      generate_response generate prompt
        (retrieve_relevant_context emb prompt documents 3)
    else
      "No documents found in the database. Please check your table name and ensure it contains data."
  with_user ++ [⟨Role.assistant, response⟩]

/-- The "Clear Chat History" button, src/app.py:46-48:
`st.session_state.messages = []`. -/
def clear_chat : List Message := []

/-- N successive user turns starting from the initial empty log
(src/app.py:13-14). -/
noncomputable def run_turns (table_read : String → Except String (List Row))
    (emb : String → List ℚ) (generate : String → Except String String)
    (table : String) (prompts : List String) : List Message :=
  prompts.foldl (fun msgs p => user_turn table_read emb generate table msgs p) []

/-! ### Prompt composer with conversation memory

`src/app.py`'s `generate_response` builds its prompt from context and
query only; the spec's Prompt Composer (section 4.3) with a
`memory_length` window belongs to the other app variants of this
repository, which are not under src/.  The three definitions below are
therefore modelled from the spec. -/

/-- Modelled from the spec: "Takes the last `memory_length` messages
from the conversation log" — the composer with memory is in the repo
variants missing from src/. -/
def recent_history (history : List Message) (memory_length : ℕ) : List Message :=
  history.drop (history.length - memory_length)

/-- Modelled from the spec: "renders each as `\x7bROLE\x7d: \x7bcontent\x7d`
joined by newlines" — the composer with memory is in the repo variants
missing from src/. -/
def history_lines (msgs : List Message) : String :=
  String.intercalate "\n" (msgs.map (fun m => m.role.render ++ ": " ++ m.content))

/-- Modelled from the spec: `compose(query, context, history,
memory_length)` "embeds that block plus the ranked context block plus
the current query into a fixed instructional template that directs the
model to use both history and context, with the query appended as the
final unanswered turn" — the composer with memory is in the repo
variants missing from src/. -/
def compose (query context : String) (history : List Message)
    (memory_length : ℕ) : String :=
  "You are a helpful AI assistant. Use the conversation history and the following context from the database to answer the user's question.\n\nConversation history:\n"
    ++ history_lines (recent_history history memory_length)
    ++ "\n\nContext from database:\n" ++ context
    ++ "\n\nUser Question: " ++ query ++ "\n\nAnswer:"

/-! ## Helper lemmas -/

theorem mem_enum_getD (xs : List α) (dflt : α) (p : ℕ × α) (hp : p ∈ xs.enum) :
    xs.getD p.1 dflt = p.2 := by
  have h := List.mem_enum_iff_getElem?.mp hp
  rw [List.getD_eq_getElem?_getD, h]
  rfl

theorem mem_enum_lt (xs : List α) (p : ℕ × α) (hp : p ∈ xs.enum) :
    p.1 < xs.length := by
  have h := List.mem_enum_iff_getElem?.mp hp
  exact (List.getElem?_eq_some.mp h).1

theorem argsort_perm (r : α → α → Prop) [inst : DecidableRel r] (xs : List α) :
    List.Perm (argsort r xs) (List.range xs.length) := by
  have h := (@List.perm_insertionSort (ℕ × α) (fun p q => r p.2 q.2)
    (fun p q => inst p.2 q.2) xs.enum).map Prod.fst
  rw [List.enum_map_fst] at h
  exact h

theorem argsort_length (r : α → α → Prop) [DecidableRel r] (xs : List α) :
    (argsort r xs).length = xs.length :=
  (argsort_perm r xs).length_eq.trans (List.length_range _)

theorem argsort_pairwise (r : α → α → Prop) [inst : DecidableRel r]
    (htot : ∀ a b, r a b ∨ r b a) (htrans : ∀ a b c, r a b → r b c → r a c)
    (xs : List α) (dflt : α) :
    (argsort r xs).Pairwise (fun i j => r (xs.getD i dflt) (xs.getD j dflt)) := by
  unfold argsort
  rw [List.pairwise_map]
  have hs : (@List.insertionSort (ℕ × α) (fun p q => r p.2 q.2)
      (fun p q => inst p.2 q.2) xs.enum).Pairwise (fun p q => r p.2 q.2) := by
    haveI : IsTotal (ℕ × α) (fun p q => r p.2 q.2) := ⟨fun a b => htot a.2 b.2⟩
    haveI : IsTrans (ℕ × α) (fun p q => r p.2 q.2) :=
      ⟨fun a b c h h' => htrans a.2 b.2 c.2 h h'⟩
    exact List.sorted_insertionSort _ _
  refine hs.imp_of_mem ?_
  intro p q hp hq hpq
  have hp' : p ∈ xs.enum :=
    (@List.perm_insertionSort (ℕ × α) _ (fun p q => inst p.2 q.2) xs.enum).mem_iff.mp hp
  have hq' : q ∈ xs.enum :=
    (@List.perm_insertionSort (ℕ × α) _ (fun p q => inst p.2 q.2) xs.enum).mem_iff.mp hq
  rw [mem_enum_getD xs dflt p hp', mem_enum_getD xs dflt q hq']
  exact hpq

theorem lastSlice_sublist (l : List β) (k : ℕ) : List.Sublist (lastSlice l k) l := by
  unfold lastSlice
  split
  · exact List.Sublist.refl l
  · exact List.drop_sublist _ l

theorem top_indicesQ_pairwise (sims : List ℚ) (k : ℕ) :
    (top_indicesQ sims k).Pairwise (fun i j => sims.getD j 0 ≤ sims.getD i 0) := by
  unfold top_indicesQ top_indices
  rw [List.pairwise_reverse]
  exact (argsort_pairwise (· ≤ ·) (fun a b => le_total a b)
    (fun a b c h h' => le_trans h h') sims 0).sublist (lastSlice_sublist _ k)

theorem top_indicesQ_length (sims : List ℚ) (k : ℕ) (hk : 1 ≤ k) :
    (top_indicesQ sims k).length = min k sims.length := by
  unfold top_indicesQ top_indices lastSlice
  rw [List.length_reverse]
  split
  · omega
  · rw [List.length_drop, argsort_length]
    omega

theorem top_indicesQ_dominates (sims : List ℚ) (k : ℕ) (hk : 1 ≤ k) :
    ∀ i ∈ top_indicesQ sims k, ∀ j, j < sims.length → j ∉ top_indicesQ sims k →
      sims.getD j 0 ≤ sims.getD i 0 := by
  intro i hi j hj hj'
  have hk0 : k ≠ 0 := by omega
  have htop : top_indicesQ sims k = ((argsort (· ≤ ·) sims).drop
      ((argsort (· ≤ ·) sims).length - k)).reverse := by
    unfold top_indicesQ top_indices lastSlice
    rw [if_neg hk0]
  rw [htop, List.mem_reverse] at hi hj'
  have hjA : j ∈ argsort (· ≤ ·) sims :=
    (argsort_perm (· ≤ ·) sims).mem_iff.mpr (List.mem_range.mpr hj)
  have hjsplit := (List.take_append_drop ((argsort (· ≤ ·) sims).length - k)
    (argsort (· ≤ ·) sims)).symm
  have hjtake : j ∈ (argsort (· ≤ ·) sims).take ((argsort (· ≤ ·) sims).length - k) := by
    rw [hjsplit] at hjA
    rcases List.mem_append.mp hjA with h | h
    · exact h
    · exact absurd h hj'
  have hpw := argsort_pairwise (· ≤ ·) (fun a b => le_total a b)
    (fun a b c h h' => le_trans h h') sims (0 : ℚ)
  rw [hjsplit] at hpw
  exact (List.pairwise_append.mp hpw).2.2 j hjtake i hi

theorem qKeep_iff (a : ℚ) : qKeep a ↔ 1 / 10 < a := by
  unfold qKeep
  norm_num [mkRat, Rat.normalize]

theorem selectContext_spec (doc_texts : List String) (sims : List ℚ) (k : ℕ) :
    (relevant_docsQ doc_texts sims k = [] →
      selectContextQ doc_texts sims k = "No relevant context found.") ∧
    (relevant_docsQ doc_texts sims k ≠ [] →
      selectContextQ doc_texts sims k
        = String.intercalate "\n\n" (relevant_docsQ doc_texts sims k)) := by
  constructor <;> intro h <;>
    simp only [selectContextQ, selectContext, relevant_docsQ] at h ⊢ <;>
    simp [h]

theorem pyOr_eq_empty {x : Option String} {y : String} (h : pyOr x y = "") : y = "" := by
  rcases x with _ | s
  · exact h
  · simp only [pyOr] at h
    by_cases hs : s = ""
    · rwa [if_pos hs] at h
    · rw [if_neg hs] at h
      exact absurd h hs

theorem user_turn_eq (table_read : String → Except String (List Row))
    (emb : String → List ℚ) (generate : String → Except String String)
    (table : String) (messages : List Message) (prompt : String) :
    user_turn table_read emb generate table messages prompt
      = messages ++ [⟨Role.user, prompt⟩,
          ⟨Role.assistant,
            if (fetch_data_from_supabase table_read table none).data ≠ [] then
              generate_response generate prompt
                (retrieve_relevant_context emb prompt
                  (fetch_data_from_supabase table_read table none).data 3)
            else
              "No documents found in the database. Please check your table name and ensure it contains data."⟩] := by
  simp [user_turn, List.append_assoc]

theorem run_turns_length_aux (table_read : String → Except String (List Row))
    (emb : String → List ℚ) (generate : String → Except String String)
    (table : String) (prompts : List String) :
    ∀ init : List Message,
      (prompts.foldl (fun msgs p => user_turn table_read emb generate table msgs p)
        init).length = init.length + 2 * prompts.length := by
  induction prompts with
  | nil => intro init; simp
  | cons p ps ih =>
    intro init
    simp only [List.foldl_cons]
    rw [ih, user_turn_eq table_read emb generate table init p]
    simp [List.length_append]
    omega

/-! ## Claim theorems -/

/-- C1: at the failing input — zero query and document embedding vectors —
the similarity computed by src/app.py:108-110 is NaN (modelled `none`),
not the 0 the claim requires: the code has no zero-norm guard, so the
division is `0.0 / 0.0`. -/
theorem cosine_zero_norm_nan :
    cosineSim [(0 : ℚ), 0] [(0 : ℚ), 0] = none ∧ (none : Option ℝ) ≠ some 0 := by
  have hn : pyNorm [(0 : ℚ), 0] = 0 := by
    unfold pyNorm
    norm_num [normSq, dotQ]
  refine ⟨?_, by simp⟩
  simp [cosineSim, hn]

/-- C4: `fetch_data_from_supabase` (src/app.py:72-84) recovers from any
failure of the remote table read with the empty row list plus a
non-fatal diagnostic, never letting the exception escape (the function
is total); on success it returns the full-table row set and no
diagnostic; and its result does not depend on the `query` argument (no
server-side filtering). -/
theorem fetch_error_recovery (table_read : String → Except String (List Row))
    (table : String) (q q' : Option String) :
    (∀ e, table_read table = Except.error e →
      fetch_data_from_supabase table_read table q
        = ⟨[], some ("Error fetching data: " ++ e)⟩) ∧
    (∀ rows, table_read table = Except.ok rows →
      fetch_data_from_supabase table_read table q = ⟨rows, none⟩) ∧
    fetch_data_from_supabase table_read table q
      = fetch_data_from_supabase table_read table q' := by
  unfold fetch_data_from_supabase
  have hq : (if q.isSome then table_read table else table_read table)
      = table_read table := by split <;> rfl
  have hq' : (if q'.isSome then table_read table else table_read table)
      = table_read table := by split <;> rfl
  rw [hq, hq']
  refine ⟨?_, ?_, rfl⟩
  · intro e he
    rw [he]
  · intro rows hr
    rw [hr]

/-- C4 witness: a concrete failing table read yields the empty row list
and the diagnostic banner text. -/
theorem fetch_error_recovery_witness :
    fetch_data_from_supabase (fun _ => Except.error "boom") "documents" none
      = ⟨[], some "Error fetching data: boom"⟩ :=
  (fetch_error_recovery (fun _ => Except.error "boom") "documents" none none).1 "boom" rfl

/-- C5: `generate_response` (src/app.py:119-135) returns the model text
on success and the formatted error string on any remote failure; it is
total, so the caller always receives a displayable string. -/
theorem generate_error_recovery (generate : String → Except String String)
    (query context : String) :
    (∀ e, generate (prompt_template context query) = Except.error e →
      generate_response generate query context = "Error generating response: " ++ e) ∧
    (∀ t, generate (prompt_template context query) = Except.ok t →
      generate_response generate query context = t) := by
  unfold generate_response
  constructor
  · intro e he
    rw [he]
  · intro t ht
    rw [ht]

/-- C5 witness: a concrete quota failure becomes the formatted error
string. -/
theorem generate_error_recovery_witness :
    generate_response (fun _ => Except.error "quota") "q" "ctx"
      = "Error generating response: quota" :=
  (generate_error_recovery (fun _ => Except.error "quota") "q" "ctx").1 "quota" rfl

/-- C8: the ranking text of a row (src/app.py:100) follows the fixed
precedence chain content / text / description / stringified row, where
"holds text" means holds a non-empty string (Python `or` skips both
absent and empty fields). -/
theorem extract_text_precedence (doc : Row) :
    (∀ s, doc.content = some s → s ≠ "" → extract_text doc = s) ∧
    (falsy doc.content → ∀ s, doc.text = some s → s ≠ "" → extract_text doc = s) ∧
    (falsy doc.content → falsy doc.text →
      ∀ s, doc.description = some s → s ≠ "" → extract_text doc = s) ∧
    (falsy doc.content → falsy doc.text → falsy doc.description →
      extract_text doc = doc.strRepr) := by
  obtain ⟨c, t, d, sr⟩ := doc
  refine ⟨?_, ?_, ?_, ?_⟩
  · intro s hs hne
    subst hs
    simp [extract_text, pyOr, hne]
  · intro hc s hs hne
    subst hs
    simp only [falsy] at hc
    rcases hc with rfl | rfl <;> simp [extract_text, pyOr, hne]
  · intro hc ht s hs hne
    subst hs
    simp only [falsy] at hc ht
    rcases hc with rfl | rfl <;> rcases ht with rfl | rfl <;>
      simp [extract_text, pyOr, hne]
  · intro hc ht hd
    simp only [falsy] at hc ht hd
    rcases hc with rfl | rfl <;> rcases ht with rfl | rfl <;> rcases hd with rfl | rfl <;>
      simp [extract_text, pyOr]

/-- C8 witness: a row with non-empty `content` extracts that field. -/
theorem extract_text_precedence_witness :
    extract_text ⟨some "c", some "t", none, "r"⟩ = "c" :=
  (extract_text_precedence ⟨some "c", some "t", none, "r"⟩).1 "c" rfl (by decide)

/-- C10: a present-but-empty field falls through to the next field of
the chain exactly as an absent one does, and the extracted text can be
empty only when the stringified row is empty. -/
theorem empty_field_falls_through (doc : Row) :
    (doc.content = some "" → extract_text doc = extract_text
      { content := none, text := doc.text, description := doc.description,
        strRepr := doc.strRepr }) ∧
    (doc.text = some "" → extract_text doc = extract_text
      { content := doc.content, text := none, description := doc.description,
        strRepr := doc.strRepr }) ∧
    (doc.description = some "" → extract_text doc = extract_text
      { content := doc.content, text := doc.text, description := none,
        strRepr := doc.strRepr }) ∧
    (extract_text doc = "" → doc.strRepr = "") := by
  obtain ⟨c, t, d, sr⟩ := doc
  refine ⟨?_, ?_, ?_, ?_⟩
  · intro hc
    subst hc
    simp [extract_text, pyOr]
  · intro ht
    subst ht
    simp [extract_text, pyOr]
  · intro hd
    subst hd
    simp [extract_text, pyOr]
  · intro h
    exact pyOr_eq_empty (pyOr_eq_empty (pyOr_eq_empty h))

/-- C2 counterexample: a document whose similarity is exactly the
threshold 0.1 is dropped (src/app.py:115 tests `> 0.1` strictly), so
with one document of similarity 0.1 the ranker returns the sentinel
rather than the document text the claim predicts. -/
theorem threshold_boundary_counterexample :
    selectContextQ ["a"] [mkRat 1 10] 3 = "No relevant context found." ∧
    mkRat 1 10 = 1 / 10 ∧ "No relevant context found." ≠ "a" := by
  refine ⟨by decide, ?_, by decide⟩
  norm_num [mkRat, Rat.normalize]

/-- C2 (amended): for `top_k ≥ 1` the ranker selects the
`min top_k n` indices of greatest similarity (every unselected index
has similarity at most that of any selected one), then keeps exactly
the selected documents whose similarity is strictly above the threshold
0.1 — a document at or below the threshold is dropped — and returns the
sentinel string when every selected document is dropped. -/
theorem embedding_ranker_topk_threshold (doc_texts : List String) (sims : List ℚ)
    (k : ℕ) (hk : 1 ≤ k) :
    (top_indicesQ sims k).length = min k sims.length ∧
    (∀ i ∈ top_indicesQ sims k, ∀ j, j < sims.length → j ∉ top_indicesQ sims k →
      sims.getD j 0 ≤ sims.getD i 0) ∧
    mkRat 1 10 = 1 / 10 ∧
    (∀ i, i ∈ kept_indicesQ sims k ↔
      i ∈ top_indicesQ sims k ∧ mkRat 1 10 < sims.getD i 0) ∧
    relevant_docsQ doc_texts sims k
      = (kept_indicesQ sims k).map (fun i => doc_texts.getD i "") ∧
    ((∀ i ∈ top_indicesQ sims k, sims.getD i 0 ≤ mkRat 1 10) →
      selectContextQ doc_texts sims k = "No relevant context found.") := by
  refine ⟨top_indicesQ_length sims k hk, top_indicesQ_dominates sims k hk,
    by norm_num [mkRat, Rat.normalize], ?_, rfl, ?_⟩
  · intro i
    unfold kept_indicesQ
    rw [List.mem_filter]
    simp [qKeep]
  · intro hall
    have hnil : kept_indicesQ sims k = [] := by
      unfold kept_indicesQ
      rw [List.filter_eq_nil_iff]
      intro i hi
      simp only [decide_eq_true_eq, qKeep, not_lt]
      exact hall i hi
    have hrd : relevant_docsQ doc_texts sims k = [] := by
      show (kept_indicesQ sims k).map (fun i => doc_texts.getD i "") = []
      rw [hnil]
      rfl
    exact (selectContext_spec doc_texts sims k).1 hrd

/-- C2 witness: with one document of similarity 1/20 (below the
threshold) and `top_k = 1`, every selected document is dropped and the
sentinel is returned. -/
theorem embedding_ranker_topk_threshold_witness :
    selectContextQ ["a"] [mkRat 1 20] 1 = "No relevant context found." :=
  (embedding_ranker_topk_threshold ["a"] [mkRat 1 20] 1 (by decide)).2.2.2.2.2
    (by decide)

/-- C3: whenever the ranker keeps at least one document (the non-sentinel
case), the returned string is the `"\n\n"`-join of the kept texts, at
most `top_k` of them, listed in descending order of similarity. -/
theorem embedding_ranker_join_order (doc_texts : List String) (sims : List ℚ)
    (k : ℕ) (hk : 1 ≤ k) (hne : relevant_docsQ doc_texts sims k ≠ []) :
    selectContextQ doc_texts sims k
      = String.intercalate "\n\n" (relevant_docsQ doc_texts sims k) ∧
    (relevant_docsQ doc_texts sims k).length ≤ k ∧
    relevant_docsQ doc_texts sims k
      = (kept_indicesQ sims k).map (fun i => doc_texts.getD i "") ∧
    (kept_indicesQ sims k).Pairwise (fun i j => sims.getD j 0 ≤ sims.getD i 0) := by
  refine ⟨(selectContext_spec doc_texts sims k).2 hne, ?_, rfl, ?_⟩
  · have h1 : (relevant_docsQ doc_texts sims k).length = (kept_indicesQ sims k).length := by
      show ((kept_indicesQ sims k).map (fun i => doc_texts.getD i "")).length = _
      rw [List.length_map]
    have h2 : (kept_indicesQ sims k).length ≤ (top_indicesQ sims k).length :=
      List.length_filter_le _ _
    rw [h1, top_indicesQ_length sims k hk] at *
    omega
  · exact (top_indicesQ_pairwise sims k).sublist (List.filter_sublist _)

/-- C3 witness: one document of similarity 1 with `top_k = 1` is kept,
and the result is the join of the single kept text. -/
theorem embedding_ranker_join_order_witness :
    selectContextQ ["a"] [(1 : ℚ)] 1
      = String.intercalate "\n\n" (relevant_docsQ ["a"] [(1 : ℚ)] 1) :=
  (embedding_ranker_join_order ["a"] [(1 : ℚ)] 1 (by decide) (by decide)).1

/-- C6 (modelled from the spec, the composer with memory being in the
repo variants missing from src/): `compose` uses exactly the last
`memory_length` messages of the log — a suffix of the log of length
`min memory_length |log|` — renders them as role-prefixed lines joined
by newlines inside the fixed template with the query as the final
unanswered turn, and with an empty history renders no history lines
(and, being a total function, never raises). -/
theorem compose_window (query context : String) (history : List Message) (m : ℕ) :
    (recent_history history m).length = min m history.length ∧
    (∃ earlier, earlier ++ recent_history history m = history) ∧
    compose query context history m =
      "You are a helpful AI assistant. Use the conversation history and the following context from the database to answer the user's question.\n\nConversation history:\n"
        ++ history_lines (recent_history history m)
        ++ "\n\nContext from database:\n" ++ context
        ++ "\n\nUser Question: " ++ query ++ "\n\nAnswer:" ∧
    (history = [] → history_lines (recent_history history m) = "") := by
  refine ⟨?_, ⟨history.take (history.length - m), ?_⟩, rfl, ?_⟩
  · unfold recent_history
    rw [List.length_drop]
    omega
  · exact List.take_append_drop _ _
  · rintro rfl
    rw [show recent_history ([] : List Message) m = [] by simp [recent_history]]
    rfl

/-- C6 witness: composing against the empty history renders no history
lines. -/
theorem compose_window_witness :
    history_lines (recent_history [] 6) = "" :=
  (compose_window "q" "ctx" [] 6).2.2.2 rfl

/-- C7: one user turn appends exactly a user message followed by an
assistant message (the old log is an unchanged prefix), so after N
turns from the empty log the length is 2N; the clear action resets the
log to length 0. -/
theorem conversation_log_growth (table_read : String → Except String (List Row))
    (emb : String → List ℚ) (generate : String → Except String String)
    (table : String) (messages : List Message) (prompt : String)
    (prompts : List String) :
    (user_turn table_read emb generate table messages prompt).length
      = messages.length + 2 ∧
    (∃ appended, user_turn table_read emb generate table messages prompt
        = messages ++ appended ∧ appended.length = 2) ∧
    (run_turns table_read emb generate table prompts).length = 2 * prompts.length ∧
    clear_chat.length = 0 := by
  refine ⟨?_, ⟨_, user_turn_eq table_read emb generate table messages prompt, rfl⟩, ?_, rfl⟩
  · rw [user_turn_eq table_read emb generate table messages prompt]
    simp
  · unfold run_turns
    rw [run_turns_length_aux table_read emb generate table prompts []]
    simp

/-- C9: with an empty document list the ranker returns the fixed
no-documents sentinel immediately; the result does not depend on the
embedding model, which is therefore never consulted. -/
theorem empty_documents_sentinel (emb emb' : String → List ℚ) (query : String)
    (k : ℕ) :
    retrieve_relevant_context emb query [] k = "No documents found in the database." ∧
    retrieve_relevant_context emb query [] k
      = retrieve_relevant_context emb' query [] k := by
  unfold retrieve_relevant_context
  exact ⟨rfl, rfl⟩

/-- C10 witness: an empty `content` field falls through to `text`. -/
theorem empty_field_falls_through_witness :
    extract_text ⟨some "", some "t", none, "r"⟩
      = extract_text ⟨none, some "t", none, "r"⟩ :=
  (empty_field_falls_through ⟨some "", some "t", none, "r"⟩).1 rfl

end RagApp
